import Mathlib

/-!
Verification of the snake-bevy movement/collision/state engine
(`src/main.rs`) against its natural-language specification.

Floating-point `f32` arithmetic is embedded as exact rational arithmetic
(`ℚ`): every computation the claims touch is a short chain of additions,
subtractions, multiplications and comparisons of small decimal constants,
which `f32` performs exactly on the inputs considered here.
-/

namespace SnakeBevy

/-! ### Configuration constants (src/main.rs lines 14-24) -/

def WALL_THICKNESS : ℚ := 10
def LEFT_WALL : ℚ := -350
def RIGHT_WALL : ℚ := 350
def BOTTOM_WALL : ℚ := -350
def TOP_WALL : ℚ := 350
def STEP_SIZE : ℚ := 1
def STEP_VELOCITY : ℚ := 800

/-- A 2-d vector / position (Bevy `Vec2`, `f32` embedded as `ℚ`). -/
structure Vec2 where
  x : ℚ
  y : ℚ
deriving DecidableEq, Repr

/-- The constant `SNAKE_HEAD_HITBOX: Vec2 = vec2(20.0, 20.0)` (line 24). -/
def SNAKE_HEAD_HITBOX : Vec2 := ⟨20, 20⟩

/-- Componentwise halving, embedding the Rust expression `v / 2.0`. -/
def Vec2.half (v : Vec2) : Vec2 := ⟨v.x / 2, v.y / 2⟩

/-! ### AABB collision primitives

`bevy::math::bounding::Aabb2d` stores `min`/`max` corners.  The three
operations the repository uses (`Aabb2d::new`, `intersects`,
`closest_point`, `center`) are embedded following their definitions in the
bevy math library. -/

structure Aabb2d where
  min : Vec2
  max : Vec2
deriving DecidableEq, Repr

/-- Embeds `Aabb2d::new(center, half_size)`: corners at `center ∓ half_size`. -/
def Aabb2d.new (center half_size : Vec2) : Aabb2d :=
  ⟨⟨center.x - half_size.x, center.y - half_size.y⟩,
   ⟨center.x + half_size.x, center.y + half_size.y⟩⟩

/-- Embeds `BoundingVolume::center`: midpoint of the corners. -/
def Aabb2d.center (a : Aabb2d) : Vec2 :=
  ⟨(a.min.x + a.max.x) / 2, (a.min.y + a.max.y) / 2⟩

/-- Embeds `IntersectsVolume::intersects`: closed-interval overlap on both axes
(`self.min.cmple(other.max).all() && self.max.cmpge(other.min).all()`). -/
def Aabb2d.intersects (a b : Aabb2d) : Bool :=
  decide (a.min.x ≤ b.max.x ∧ b.min.x ≤ a.max.x ∧
          a.min.y ≤ b.max.y ∧ b.min.y ≤ a.max.y)

/-- Rust `f32::abs`. -/
def absQ (v : ℚ) : ℚ := if v < 0 then -v else v

/-- Rust `f32::clamp(self, lo, hi)`. -/
def clampQ (v lo hi : ℚ) : ℚ :=
  if v < lo then lo else if v > hi then hi else v

/-- Embeds `Aabb2d::closest_point`: clamp the point into the box, componentwise. -/
def Aabb2d.closest_point (a : Aabb2d) (p : Vec2) : Vec2 :=
  ⟨clampQ p.x a.min.x a.max.x, clampQ p.y a.min.y a.max.y⟩

/-- The four collision sides (enum `Collision`, lines 64-70). -/
inductive Collision where
  | Left
  | Right
  | Top
  | Bottom
deriving DecidableEq, Repr

/-- Embeds `collided_with_wall_apple` (lines 314-335): `None` when the boxes do
not intersect, else the struck side classified from
`offset = snake_segment.center() - closest`. -/
def collided_with_wall_apple (snake_segment wall_or_apple : Aabb2d) :
    Option Collision :=
  if snake_segment.intersects wall_or_apple = false then
    none
  else
    let closest := wall_or_apple.closest_point snake_segment.center
    let offsetX := snake_segment.center.x - closest.x
    let offsetY := snake_segment.center.y - closest.y
    some (if absQ offsetX > absQ offsetY then
            (if offsetX < 0 then Collision.Left else Collision.Right)
          else if offsetY > 0 then Collision.Top
          else Collision.Bottom)

/-- The side classifier exactly as the claim words it: the offset vector is
taken "from the moving box's center to the closest point", i.e.
`closest - center` (the source computes `center - closest` instead). -/
def collided_claim_offset (snake_segment wall_or_apple : Aabb2d) :
    Option Collision :=
  if snake_segment.intersects wall_or_apple = false then
    none
  else
    let closest := wall_or_apple.closest_point snake_segment.center
    let offsetX := closest.x - snake_segment.center.x
    let offsetY := closest.y - snake_segment.center.y
    some (if absQ offsetX > absQ offsetY then
            (if offsetX < 0 then Collision.Left else Collision.Right)
          else if offsetY > 0 then Collision.Top
          else Collision.Bottom)

/-! ### Snake movement (`move_snake`, lines 216-264) -/

/-- The four level-triggered arrow-key signals sampled during a tick. -/
structure KeyInput where
  down : Bool
  up : Bool
  left : Bool
  right : Bool
deriving DecidableEq, Repr

/-- The `moved` flag: true when at least one arrow key is pressed. -/
def KeyInput.anyPressed (k : KeyInput) : Bool :=
  k.down || k.up || k.left || k.right

/-- The quantity `movement_amount = STEP_SIZE * STEP_VELOCITY * time.delta_seconds()`
(line 233); `delta` is the frame's delta time in seconds. -/
def movement_amount (delta : ℚ) : ℚ := STEP_SIZE * STEP_VELOCITY * delta

/-- The head displacement block (lines 235-253): each pressed arrow key
adds or subtracts `amt` on its axis, sequentially. -/
def moveHead (k : KeyInput) (amt : ℚ) (p : Vec2) : Vec2 :=
  let p1 := if k.down then { p with y := p.y - amt } else p
  let p2 := if k.up then { p1 with y := p1.y + amt } else p1
  let p3 := if k.left then { p2 with x := p2.x - amt } else p2
  if k.right then { p3 with x := p3.x + amt } else p3

/-- The body-propagation loop (lines 256-261): each segment receives the
carried position and carries forward its own prior position.  `carry`
starts as the head's pre-displacement position (captured line 231). -/
def shiftSegments : Vec2 → List Vec2 → List Vec2
  | _, [] => []
  | carry, p :: rest => carry :: shiftSegments p rest

/-- The `Timer::from_seconds(0.1, TimerMode::Once)` interval (line 92). -/
def MOVE_COOLDOWN : ℚ := 1 / 10

/-- The movement-relevant state: head position, body-segment positions in
front-to-back query order, and the cooldown timer's elapsed time. -/
structure Snake where
  head : Vec2
  body : List Vec2
  cooldownElapsed : ℚ
deriving DecidableEq, Repr

/-- Embeds `move_snake` (lines 216-264): when the cooldown finishes it is reset,
the head is displaced per pressed key, and if any key was pressed the body
positions shift by one with the head's pre-displacement position carried
into the first segment.  Otherwise only the timer advances. -/
def move_snake (k : KeyInput) (delta : ℚ) (s : Snake) : Snake :=
  if MOVE_COOLDOWN ≤ s.cooldownElapsed + delta then
    { head := moveHead k (movement_amount delta) s.head
      body := if k.anyPressed then shiftSegments s.head s.body else s.body
      cooldownElapsed := 0 }
  else
    { s with cooldownElapsed := s.cooldownElapsed + delta }

/-! ### Entities and the collision pass (`check_for_collisions`, lines 266-312) -/

/-- The marker components an entity may carry (`Collider`, `SnakeHead`,
`Apple`, `SnakeBodySegment`). -/
structure Components where
  collider : Bool
  snakeHead : Bool
  apple : Bool
  snakeBodySegment : Bool
deriving DecidableEq, Repr

/-- Components attached by `snake_segment_spawn` (lines 364-382): only
`SnakeBodySegment` — in particular no `Collider`. -/
def snakeSegmentSpawnComponents : Components :=
  ⟨false, false, false, true⟩

/-- Components attached by `apple_spawn` (lines 346-362): `Apple` and
`Collider`. -/
def appleSpawnComponents : Components :=
  ⟨true, false, true, false⟩

/-- Components of a wall (`WallBundle`, lines 97-156): `Collider`. -/
def wallComponents : Components :=
  ⟨true, false, false, false⟩

/-- Components of the head spawned by `snake_spawn` (lines 391-400):
`SnakeHead` and `Collider`. -/
def snakeHeadSpawnComponents : Components :=
  ⟨true, true, false, false⟩

/-- A world entity as the collision systems see it: its marker components,
its transform translation and its transform scale. -/
structure GameEnt where
  comps : Components
  translation : Vec2
  scale : Vec2
deriving DecidableEq, Repr

/-- The filter of `collider_query`:
`(With<Collider>, Without<SnakeHead>)` (lines 273-276). -/
def colliderQueryKeep (e : GameEnt) : Bool :=
  e.comps.collider && !e.comps.snakeHead

/-- The entities `collider_query` yields from a world. -/
def worldColliders (es : List GameEnt) : List GameEnt :=
  es.filter colliderQueryKeep

/-- The head's fixed AABB (lines 280-283). -/
def headAabb (headPos : Vec2) : Aabb2d :=
  Aabb2d.new headPos SNAKE_HEAD_HITBOX.half

/-- A collider's AABB (lines 284-291): apples use the fixed head hitbox,
anything else (walls) uses its own transform scale. -/
def colliderAabb (e : GameEnt) : Aabb2d :=
  Aabb2d.new e.translation
    (if e.comps.apple then SNAKE_HEAD_HITBOX.half else e.scale.half)

/-- The observable effects of one `check_for_collisions` pass: the
scoreboard value, whether `next_state.set(GameState::GameOver)` was
called, how many apples were despawned and spawned, and the positions of
the snake segments spawned (in order). -/
structure GameEffects where
  score : Nat
  gameOver : Bool
  applesDespawned : Nat
  applesSpawned : Nat
  segmentsAppended : List Vec2
deriving DecidableEq, Repr

/-- The body of the inner loop of `check_for_collisions` (lines 279-310)
for one collider: on a detected collision, an apple increments the score,
is despawned, respawns one apple and spawns one body segment at the head's
translation; anything else (a wall) sets the next state to GameOver. -/
def processCollider (headPos : Vec2) (eff : GameEffects) (e : GameEnt) :
    GameEffects :=
  match collided_with_wall_apple (headAabb headPos) (colliderAabb e) with
  | none => eff
  | some _ =>
    if e.comps.apple then
      { eff with
          score := eff.score + 1
          applesDespawned := eff.applesDespawned + 1
          applesSpawned := eff.applesSpawned + 1
          segmentsAppended := eff.segmentsAppended ++ [headPos] }
    else
      { eff with gameOver := true }

/-- Embeds `check_for_collisions` (lines 266-312): the head's transform against
every entity the collider query yields, folding the per-collider effects.
`score0` is the scoreboard value entering the pass. -/
def check_for_collisions (score0 : Nat) (headPos : Vec2)
    (es : List GameEnt) : GameEffects :=
  (worldColliders es).foldl (processCollider headPos)
    ⟨score0, false, 0, 0, []⟩

/-- Whether the head's hitbox collides with entity `e`. -/
def headHits (headPos : Vec2) (e : GameEnt) : Bool :=
  (collided_with_wall_apple (headAabb headPos) (colliderAabb e)).isSome

/-- A collider that is an apple and is hit by the head this pass. -/
def isEatHit (headPos : Vec2) (e : GameEnt) : Bool :=
  e.comps.apple && headHits headPos e

/-- A collider that is not an apple (a wall) and is hit by the head. -/
def isWallHit (headPos : Vec2) (e : GameEnt) : Bool :=
  !e.comps.apple && headHits headPos e

/-! ### Other systems -/

/-- Embeds `display_final_score` (lines 415-455): the panel shows
`scoreboard.score`, then the scoreboard is reset to 0.  Returns
`(displayed final score, scoreboard afterwards)`. -/
def display_final_score (score : Nat) : Nat × Nat :=
  (score, 0)

/-- Embeds `rng.gen_range(lo..hi)`: a sample from the half-open range `[lo, hi)`,
parameterised by a unit sample `u ∈ [0, 1)`. -/
def gen_range (lo hi u : ℚ) : ℚ := lo + u * (hi - lo)

/-- Embeds `apple_rng_position` (lines 337-344): x and y drawn from the arena
inset by the wall thickness on each side; `ux`, `uy` are the generator's
unit samples. -/
def apple_rng_position (ux uy : ℚ) : Vec2 :=
  ⟨gen_range (LEFT_WALL + WALL_THICKNESS) (RIGHT_WALL - WALL_THICKNESS) ux,
   gen_range (BOTTOM_WALL + WALL_THICKNESS) (TOP_WALL - WALL_THICKNESS) uy⟩

/-! ### Helper lemmas -/

-- Rational arithmetic is sealed in Batteries; re-enable definitional
-- reduction within this development so concrete states evaluate.
attribute [local semireducible] Rat.add Rat.mul Rat.sub Rat.inv

/-- The propagation loop produces the carry followed by all but the last
prior segment position. -/
theorem shiftSegments_eq_dropLast (l : List Vec2) :
    ∀ c : Vec2, shiftSegments c l = (c :: l).dropLast := by
  induction l with
  | nil => intro c; rfl
  | cons p rest ih =>
    intro c
    simp only [shiftSegments, List.dropLast_cons₂, List.cons.injEq, true_and]
    exact ih p

/-- Indexwise reading of the propagation loop: position `i` of the shifted
body is position `i` of the carry-prefixed prior body, for `i` in range. -/
theorem shiftSegments_getElem (l : List Vec2) :
    ∀ (c : Vec2) (i : ℕ), i < l.length →
      (shiftSegments c l)[i]? = (c :: l)[i]? := by
  induction l with
  | nil => intro c i hi; simp at hi
  | cons p rest ih =>
    intro c i hi
    cases i with
    | zero => simp [shiftSegments]
    | succ j =>
      simp only [shiftSegments, List.getElem?_cons_succ]
      exact ih p j (Nat.lt_of_succ_lt_succ hi)

/-- The collision query answers positively exactly on intersection. -/
theorem collided_isSome (a b : Aabb2d) :
    (collided_with_wall_apple a b).isSome = a.intersects b := by
  cases h : a.intersects b <;>
    simp [collided_with_wall_apple, h]

/-- The AABB overlap test is symmetric. -/
theorem intersects_comm (a b : Aabb2d) :
    a.intersects b = b.intersects a := by
  simp only [Aabb2d.intersects]
  rw [decide_eq_decide]
  tauto

/-- Closed form of the collision-pass fold: the score, despawn and spawn
counters each advance by the number of apple colliders the head hits, one
segment is appended at the head's position per apple hit, and game over is
requested exactly when some non-apple (wall) collider is hit. -/
theorem foldl_processCollider (h : Vec2) (l : List GameEnt) :
    ∀ eff : GameEffects,
      l.foldl (processCollider h) eff =
        { score := eff.score + (l.filter (isEatHit h)).length
          gameOver := eff.gameOver || l.any (isWallHit h)
          applesDespawned :=
            eff.applesDespawned + (l.filter (isEatHit h)).length
          applesSpawned := eff.applesSpawned + (l.filter (isEatHit h)).length
          segmentsAppended :=
            eff.segmentsAppended ++ (l.filter (isEatHit h)).map (fun _ => h) } := by
  induction l with
  | nil => intro eff; simp
  | cons e t ih =>
    intro eff
    rw [List.foldl_cons, ih]
    cases hc : collided_with_wall_apple (headAabb h) (colliderAabb e) with
    | none =>
      have hhit : headHits h e = false := by simp [headHits, hc]
      have he : isEatHit h e = false := by simp [isEatHit, hhit]
      have hw : isWallHit h e = false := by simp [isWallHit, hhit]
      simp [processCollider, hc, List.filter_cons, List.any_cons, he, hw]
    | some c =>
      have hhit : headHits h e = true := by simp [headHits, hc]
      cases hap : e.comps.apple with
      | true =>
        have he : isEatHit h e = true := by simp [isEatHit, hhit, hap]
        have hw : isWallHit h e = false := by simp [isWallHit, hap]
        simp [processCollider, hc, hap, List.filter_cons, List.any_cons, he,
          hw, Nat.add_assoc, Nat.add_comm 1]
      | false =>
        have he : isEatHit h e = false := by simp [isEatHit, hap]
        have hw : isWallHit h e = true := by simp [isWallHit, hhit, hap]
        simp [processCollider, hc, hap, List.filter_cons, List.any_cons, he, hw]

/-- Closed form of `check_for_collisions` over the collider query. -/
theorem check_for_collisions_spec (score0 : ℕ) (h : Vec2)
    (es : List GameEnt) :
    check_for_collisions score0 h es =
      { score := score0 + ((worldColliders es).filter (isEatHit h)).length
        gameOver := (worldColliders es).any (isWallHit h)
        applesDespawned := ((worldColliders es).filter (isEatHit h)).length
        applesSpawned := ((worldColliders es).filter (isEatHit h)).length
        segmentsAppended :=
          ((worldColliders es).filter (isEatHit h)).map (fun _ => h) } := by
  rw [check_for_collisions, foldl_processCollider]
  simp

/-- Shared helper: a hit on a non-apple (wall) collider in the query's
output forces the pass to request GameOver. -/
theorem check_gameOver_of_wallHit (score0 : ℕ) (headPos : Vec2)
    (es : List GameEnt) (w : GameEnt)
    (hw : w ∈ worldColliders es) (hwall : w.comps.apple = false)
    (hhit : headHits headPos w = true) :
    (check_for_collisions score0 headPos es).gameOver = true := by
  rw [check_for_collisions_spec]
  simp only [List.any_eq_true]
  exact ⟨w, hw, by simp [isWallHit, hwall, hhit]⟩

/-- Shared helper: when the query's output holds exactly one apple and the
head hits it, the pass scores exactly one, despawns and spawns exactly one
apple, and appends exactly one segment, at the head's position. -/
theorem check_eat_of_unique_apple (score0 : ℕ) (headPos : Vec2)
    (es : List GameEnt) (a : GameEnt)
    (happles : (worldColliders es).filter (fun e => e.comps.apple) = [a])
    (hhit : headHits headPos a = true) :
    (check_for_collisions score0 headPos es).score = score0 + 1 ∧
    (check_for_collisions score0 headPos es).applesDespawned = 1 ∧
    (check_for_collisions score0 headPos es).applesSpawned = 1 ∧
    (check_for_collisions score0 headPos es).segmentsAppended = [headPos] := by
  have hfe : (worldColliders es).filter (isEatHit headPos) = [a] := by
    have h1 : (worldColliders es).filter (isEatHit headPos)
        = ((worldColliders es).filter (fun e => e.comps.apple)).filter
            (headHits headPos) := by
      rw [List.filter_filter]
      apply List.filter_congr
      intro e _
      rw [isEatHit, Bool.and_comm]
    rw [h1, happles]
    simp [hhit]
  rw [check_for_collisions_spec]
  simp [hfe]

/-! ### Claims -/

/-- Claim C1: on every movement tick in which at least one direction is
pressed and the body has length N ≥ 1, after the tick each body segment i
(0-indexed from the head) holds the pre-tick position of segment i − 1,
with segment 0 holding the head's pre-tick (pre-displacement) position,
and the former tail position is discarded (growth is performed by a
different system, so none occurs within this tick of `move_snake`). -/
theorem C1_body_shifts_by_one (k : KeyInput) (delta : ℚ) (s : Snake)
    (hfire : MOVE_COOLDOWN ≤ s.cooldownElapsed + delta)
    (hpressed : k.anyPressed = true)
    (hlen : 1 ≤ s.body.length) :
    (move_snake k delta s).body.length = s.body.length ∧
    (∀ i : ℕ, i < s.body.length →
      (move_snake k delta s).body[i]? = (s.head :: s.body)[i]?) ∧
    (move_snake k delta s).body = (s.head :: s.body).dropLast := by
  have hbody : (move_snake k delta s).body = shiftSegments s.head s.body := by
    simp [move_snake, if_pos hfire, hpressed]
  refine ⟨?_, ?_, ?_⟩
  · rw [hbody, shiftSegments_eq_dropLast]
    simp
  · intro i hi
    rw [hbody]
    exact shiftSegments_getElem s.body s.head i hi
  · rw [hbody, shiftSegments_eq_dropLast]

/-- Witness for C1: pressing Up for one tick with delta 0.1 from head
(20, 21) and body [(20, 22), (20, 25), (20, 29)] shifts the body to
[(20, 21), (20, 22), (20, 25)], discarding the old tail (20, 29). -/
theorem C1_body_shifts_by_one_witness :
    (move_snake ⟨false, true, false, false⟩ (1 / 10)
        ⟨⟨20, 21⟩, [⟨20, 22⟩, ⟨20, 25⟩, ⟨20, 29⟩], 0⟩).body
      = [⟨20, 21⟩, ⟨20, 22⟩, ⟨20, 25⟩] := by
  rw [(C1_body_shifts_by_one ⟨false, true, false, false⟩ (1 / 10)
      ⟨⟨20, 21⟩, [⟨20, 22⟩, ⟨20, 25⟩, ⟨20, 29⟩], 0⟩
      (by decide) (by decide) (by decide)).2.2]
  decide

/-- Counterexample to claim C4: the per-tick head displacement is not a
fixed build-time constant — it is `STEP_SIZE * STEP_VELOCITY *
time.delta_seconds()`, so two ticks that both press Up from the same state
but elapse different frame deltas move the head by different distances
(here 80 versus 160). -/
theorem C4_counterexample :
    (move_snake ⟨false, true, false, false⟩ (1 / 10) ⟨⟨0, 0⟩, [], 0⟩).head ≠
      (move_snake ⟨false, true, false, false⟩ (2 / 10) ⟨⟨0, 0⟩, [], 0⟩).head ∧
    movement_amount (1 / 10) ≠ movement_amount (2 / 10) := by
  decide

/-- Claim C4 (amended): on every elapsed movement tick the head is
displaced along each pressed axis by `movement_amount delta =
STEP_SIZE * STEP_VELOCITY * delta` — an amount depending on the tick's
frame delta, not a fixed build-time constant — and simultaneously pressed
axes contribute additively, so diagonal motion is possible. -/
theorem C4_head_displacement (k : KeyInput) (delta : ℚ) (s : Snake)
    (hfire : MOVE_COOLDOWN ≤ s.cooldownElapsed + delta) :
    (move_snake k delta s).head.x
        = s.head.x - (if k.left then movement_amount delta else 0)
          + (if k.right then movement_amount delta else 0) ∧
    (move_snake k delta s).head.y
        = s.head.y - (if k.down then movement_amount delta else 0)
          + (if k.up then movement_amount delta else 0) := by
  rcases k with ⟨d, u, l, r⟩
  simp only [move_snake, if_pos hfire]
  cases d <;> cases u <;> cases l <;> cases r <;>
    simp [moveHead] <;> ring

/-- Witness for C4 (amended): pressing Up and Right together with delta
0.1 moves the head diagonally by 80 on each axis. -/
theorem C4_head_displacement_witness :
    (move_snake ⟨false, true, false, true⟩ (1 / 10) ⟨⟨0, 0⟩, [], 0⟩).head.x
        = 0 - (if false then movement_amount (1 / 10) else 0)
          + (if true then movement_amount (1 / 10) else 0) ∧
    (move_snake ⟨false, true, false, true⟩ (1 / 10) ⟨⟨0, 0⟩, [], 0⟩).head.y
        = 0 - (if false then movement_amount (1 / 10) else 0)
          + (if true then movement_amount (1 / 10) else 0) :=
  C4_head_displacement ⟨false, true, false, true⟩ (1 / 10) ⟨⟨0, 0⟩, [], 0⟩
    (by decide)

/-- Claim C6: on every elapsed movement tick with no direction pressed,
neither the head position nor any body-segment position changes, and the
movement cooldown is still reset. -/
theorem C6_idle_tick (k : KeyInput) (delta : ℚ) (s : Snake)
    (hfire : MOVE_COOLDOWN ≤ s.cooldownElapsed + delta)
    (hnone : k.anyPressed = false) :
    (move_snake k delta s).head = s.head ∧
    (move_snake k delta s).body = s.body ∧
    (move_snake k delta s).cooldownElapsed = 0 := by
  rcases k with ⟨d, u, l, r⟩
  simp only [KeyInput.anyPressed, Bool.or_eq_false_iff] at hnone
  obtain ⟨⟨⟨hd, hu⟩, hl⟩, hr⟩ := hnone
  subst hd hu hl hr
  simp [move_snake, if_pos hfire, moveHead, KeyInput.anyPressed]

/-- Witness for C6: a tick with no key pressed from head (20, 21), body
[(20, 22)] and an expired cooldown leaves all positions unchanged and
resets the cooldown. -/
theorem C6_idle_tick_witness :
    (move_snake ⟨false, false, false, false⟩ (1 / 10)
        ⟨⟨20, 21⟩, [⟨20, 22⟩], 0⟩).head = ⟨20, 21⟩ ∧
    (move_snake ⟨false, false, false, false⟩ (1 / 10)
        ⟨⟨20, 21⟩, [⟨20, 22⟩], 0⟩).body = [⟨20, 22⟩] ∧
    (move_snake ⟨false, false, false, false⟩ (1 / 10)
        ⟨⟨20, 21⟩, [⟨20, 22⟩], 0⟩).cooldownElapsed = 0 :=
  C6_idle_tick ⟨false, false, false, false⟩ (1 / 10)
    ⟨⟨20, 21⟩, [⟨20, 22⟩], 0⟩ (by decide) (by decide)

/-- Claim C2: on every Playing tick in which the head's hitbox overlaps a
wall collider (a collider-query entity that is not food), the pass
requests the transition from Playing to GameOver, and the final score the
game-over panel displays equals the Scoreboard value immediately before
the transition, after which the Scoreboard is reset to 0. -/
theorem C2_wall_hit_game_over (score0 : ℕ) (headPos : Vec2)
    (es : List GameEnt) (w : GameEnt)
    (hw : w ∈ worldColliders es) (hwall : w.comps.apple = false)
    (hhit : headHits headPos w = true) :
    (check_for_collisions score0 headPos es).gameOver = true ∧
    display_final_score (check_for_collisions score0 headPos es).score
      = ((check_for_collisions score0 headPos es).score, 0) :=
  ⟨check_gameOver_of_wallHit score0 headPos es w hw hwall hhit, rfl⟩

/-- Witness for C2: head at (0, 340) overlaps the top wall (translation
(0, 350), scale (710, 10)); the pass with scoreboard 3 requests GameOver
and the panel displays 3 before resetting the scoreboard to 0. -/
theorem C2_wall_hit_game_over_witness :
    (check_for_collisions 3 ⟨0, 340⟩
        [⟨wallComponents, ⟨0, 350⟩, ⟨710, 10⟩⟩]).gameOver = true ∧
    display_final_score
        (check_for_collisions 3 ⟨0, 340⟩
          [⟨wallComponents, ⟨0, 350⟩, ⟨710, 10⟩⟩]).score
      = ((check_for_collisions 3 ⟨0, 340⟩
          [⟨wallComponents, ⟨0, 350⟩, ⟨710, 10⟩⟩]).score, 0) :=
  C2_wall_hit_game_over 3 ⟨0, 340⟩ [⟨wallComponents, ⟨0, 350⟩, ⟨710, 10⟩⟩]
    ⟨wallComponents, ⟨0, 350⟩, ⟨710, 10⟩⟩ (by decide) (by decide) (by decide)

/-- Counterexample to claim C3: the new trailing segment is NOT spawned at
the current tail's position.  With the head entity at (0, 0), an
overlapping apple at (5, 5), and the snake's tail at (20, 29) (the default
body's last segment), `check_for_collisions` spawns the new segment at the
head's position (0, 0), not at the tail's (20, 29):
`snake_segment_spawn` is called with `snake_head_transform.translation`
(src/main.rs lines 298-304). -/
theorem C3_counterexample :
    (check_for_collisions 0 ⟨0, 0⟩
        [⟨appleSpawnComponents, ⟨5, 5⟩, ⟨20, 20⟩⟩]).segmentsAppended
      = [⟨0, 0⟩] ∧
    (check_for_collisions 0 ⟨0, 0⟩
        [⟨appleSpawnComponents, ⟨5, 5⟩, ⟨20, 20⟩⟩]).segmentsAppended
      ≠ [⟨20, 29⟩] := by
  decide

/-- Claim C3 (amended): on every Playing tick in which the head's hitbox
overlaps the (unique) food collider, the Scoreboard is incremented by
exactly 1, the eaten food is despawned and exactly one new food item is
spawned, and exactly one new trailing segment is spawned — at the head's
current position (not the tail's) — so the body length increases by
exactly 1. -/
theorem C3_eat_effects (score0 : ℕ) (headPos : Vec2) (es : List GameEnt)
    (a : GameEnt)
    (happles : (worldColliders es).filter (fun e => e.comps.apple) = [a])
    (hhit : headHits headPos a = true) :
    (check_for_collisions score0 headPos es).score = score0 + 1 ∧
    (check_for_collisions score0 headPos es).applesDespawned = 1 ∧
    (check_for_collisions score0 headPos es).applesSpawned = 1 ∧
    (check_for_collisions score0 headPos es).segmentsAppended = [headPos] :=
  check_eat_of_unique_apple score0 headPos es a happles hhit

/-- Witness for C3 (amended): scoreboard 0, head at (0, 0), world holding
one apple at (5, 5): the pass scores 1, despawns and spawns one apple, and
spawns one segment at (0, 0). -/
theorem C3_eat_effects_witness :
    (check_for_collisions 0 ⟨0, 0⟩
        [⟨appleSpawnComponents, ⟨5, 5⟩, ⟨20, 20⟩⟩]).score = 0 + 1 ∧
    (check_for_collisions 0 ⟨0, 0⟩
        [⟨appleSpawnComponents, ⟨5, 5⟩, ⟨20, 20⟩⟩]).applesDespawned = 1 ∧
    (check_for_collisions 0 ⟨0, 0⟩
        [⟨appleSpawnComponents, ⟨5, 5⟩, ⟨20, 20⟩⟩]).applesSpawned = 1 ∧
    (check_for_collisions 0 ⟨0, 0⟩
        [⟨appleSpawnComponents, ⟨5, 5⟩, ⟨20, 20⟩⟩]).segmentsAppended
      = [⟨0, 0⟩] :=
  C3_eat_effects 0 ⟨0, 0⟩ [⟨appleSpawnComponents, ⟨5, 5⟩, ⟨20, 20⟩⟩]
    ⟨appleSpawnComponents, ⟨5, 5⟩, ⟨20, 20⟩⟩ (by decide) (by decide)

/-- Counterexample to claim C5: the claim takes the offset "from the
moving box's center to the closest point on the stationary box"
(closest − center), but the source computes `center − closest` (line 321).
For a moving box centred at (−30, 0) overlapping a stationary box centred
at (0, 0) with half-extents (20, 5), the closest point is (−20, 0): the
code classifies Left, while the claim's offset direction classifies
Right. -/
theorem C5_counterexample :
    collided_with_wall_apple (Aabb2d.new ⟨-30, 0⟩ ⟨20, 20⟩)
        (Aabb2d.new ⟨0, 0⟩ ⟨20, 5⟩) = some Collision.Left ∧
    collided_claim_offset (Aabb2d.new ⟨-30, 0⟩ ⟨20, 20⟩)
        (Aabb2d.new ⟨0, 0⟩ ⟨20, 5⟩) = some Collision.Right := by
  decide

/-- Claim C5 (amended): for every pair of AABBs the collision query
returns `none` exactly when the boxes do not overlap; when they overlap it
returns `some side` where `side` is computed from the offset from the
closest point on the stationary box to the moving box's center
(offset = center − closest): Left if |offset.x| > |offset.y| and
offset.x < 0, Right if |offset.x| > |offset.y| and offset.x ≥ 0, Top if
|offset.x| ≤ |offset.y| and offset.y > 0, otherwise Bottom. -/
theorem C5_side_classification (a b : Aabb2d) :
    (collided_with_wall_apple a b = none ↔ a.intersects b = false) ∧
    (a.intersects b = true →
      collided_with_wall_apple a b =
        some (if absQ (a.center.x - (b.closest_point a.center).x) >
                  absQ (a.center.y - (b.closest_point a.center).y) then
                (if a.center.x - (b.closest_point a.center).x < 0 then
                  Collision.Left
                else Collision.Right)
              else if a.center.y - (b.closest_point a.center).y > 0 then
                Collision.Top
              else Collision.Bottom)) := by
  cases h : a.intersects b <;>
    simp [collided_with_wall_apple, h]

/-- Witness for C5 (amended): the overlapping pair from the
counterexample is classified through the amended rule as Left. -/
theorem C5_side_classification_witness :
    collided_with_wall_apple (Aabb2d.new ⟨-30, 0⟩ ⟨20, 20⟩)
        (Aabb2d.new ⟨0, 0⟩ ⟨20, 5⟩) = some Collision.Left := by
  rw [(C5_side_classification (Aabb2d.new ⟨-30, 0⟩ ⟨20, 20⟩)
      (Aabb2d.new ⟨0, 0⟩ ⟨20, 5⟩)).2 (by decide)]
  decide

/-- Claim C7: every position the food spawner produces, with arena
[−350, 350] × [−350, 350] and wall thickness 10, satisfies
−340 ≤ x ≤ 340 and −340 ≤ y ≤ 340 — inset from every wall by the wall
thickness (the generator draws from the half-open ranges
[−340, 340) on each axis). -/
theorem C7_spawn_bounds (ux uy : ℚ)
    (hux0 : 0 ≤ ux) (hux1 : ux < 1) (huy0 : 0 ≤ uy) (huy1 : uy < 1) :
    -340 ≤ (apple_rng_position ux uy).x ∧
    (apple_rng_position ux uy).x ≤ 340 ∧
    -340 ≤ (apple_rng_position ux uy).y ∧
    (apple_rng_position ux uy).y ≤ 340 := by
  simp only [apple_rng_position, gen_range, LEFT_WALL, RIGHT_WALL,
    BOTTOM_WALL, TOP_WALL, WALL_THICKNESS]
  refine ⟨by nlinarith, by nlinarith, by nlinarith, by nlinarith⟩

/-- Witness for C7: the spawn at unit samples (1/2, 1/4) lies within the
inset bounds. -/
theorem C7_spawn_bounds_witness :
    -340 ≤ (apple_rng_position (1 / 2) (1 / 4)).x ∧
    (apple_rng_position (1 / 2) (1 / 4)).x ≤ 340 ∧
    -340 ≤ (apple_rng_position (1 / 2) (1 / 4)).y ∧
    (apple_rng_position (1 / 2) (1 / 4)).y ≤ 340 :=
  C7_spawn_bounds (1 / 2) (1 / 4) (by norm_num) (by norm_num) (by norm_num)
    (by norm_num)

/-- Claim C8: the overlap test is symmetric — for every pair of AABBs the
collision query answers positively on (A, B) exactly when it does on
(B, A), though the classified side may differ. -/
theorem C8_overlap_symmetric (a b : Aabb2d) :
    (collided_with_wall_apple a b).isSome
      = (collided_with_wall_apple b a).isSome := by
  rw [collided_isSome, collided_isSome, intersects_comm]

/-- Claim C9: snake body segments never participate in collision
detection.  Entities spawned by `snake_segment_spawn` carry only the
`SnakeBodySegment` marker — no `Collider` — so they fail the collider
query's `(With<Collider>, Without<SnakeHead>)` filter, and a collision
pass over any world extended with body-segment entities produces exactly
the effects of the pass without them: self-intersection never causes a
GameOver request, a score change, or growth. -/
theorem C9_segments_never_collide (score0 : ℕ) (headPos : Vec2)
    (segs es : List GameEnt)
    (hsegs : ∀ e ∈ segs, e.comps = snakeSegmentSpawnComponents) :
    (∀ e ∈ segs, colliderQueryKeep e = false) ∧
    check_for_collisions score0 headPos (segs ++ es)
      = check_for_collisions score0 headPos es := by
  have hkeep : ∀ e ∈ segs, colliderQueryKeep e = false := by
    intro e he
    rw [colliderQueryKeep, hsegs e he]
    rfl
  refine ⟨hkeep, ?_⟩
  have hnil : segs.filter colliderQueryKeep = [] :=
    List.filter_eq_nil_iff.mpr (fun e he => by simp [hkeep e he])
  rw [check_for_collisions, check_for_collisions, worldColliders,
    worldColliders, List.filter_append, hnil, List.nil_append]

/-- Witness for C9: a body segment placed exactly at the head's position
(0, 0) alongside an apple world is invisible to the pass — the effects
equal those of the world without the segment. -/
theorem C9_segments_never_collide_witness :
    (∀ e ∈ [(⟨snakeSegmentSpawnComponents, ⟨0, 0⟩, ⟨20, 20⟩⟩ : GameEnt)],
      colliderQueryKeep e = false) ∧
    check_for_collisions 0 ⟨0, 0⟩
        ([⟨snakeSegmentSpawnComponents, ⟨0, 0⟩, ⟨20, 20⟩⟩] ++
          [⟨appleSpawnComponents, ⟨5, 5⟩, ⟨20, 20⟩⟩])
      = check_for_collisions 0 ⟨0, 0⟩
          [⟨appleSpawnComponents, ⟨5, 5⟩, ⟨20, 20⟩⟩] :=
  C9_segments_never_collide 0 ⟨0, 0⟩
    [⟨snakeSegmentSpawnComponents, ⟨0, 0⟩, ⟨20, 20⟩⟩]
    [⟨appleSpawnComponents, ⟨5, 5⟩, ⟨20, 20⟩⟩] (by decide)

/-- Claim C10: if in a single collision-check pass the head's hitbox
overlaps both the (unique) food collider and a wall collider, both
reactions occur in that same pass: the Scoreboard is incremented, the food
is despawned and respawned, a segment is appended, and GameOver is also
requested — the eat reaction is not suppressed by the simultaneous fatal
wall collision. -/
theorem C10_eat_and_die_same_pass (score0 : ℕ) (headPos : Vec2)
    (es : List GameEnt) (a w : GameEnt)
    (happles : (worldColliders es).filter (fun e => e.comps.apple) = [a])
    (hahit : headHits headPos a = true)
    (hw : w ∈ worldColliders es) (hwall : w.comps.apple = false)
    (hwhit : headHits headPos w = true) :
    (check_for_collisions score0 headPos es).score = score0 + 1 ∧
    (check_for_collisions score0 headPos es).applesDespawned = 1 ∧
    (check_for_collisions score0 headPos es).applesSpawned = 1 ∧
    (check_for_collisions score0 headPos es).segmentsAppended = [headPos] ∧
    (check_for_collisions score0 headPos es).gameOver = true :=
  ⟨(check_eat_of_unique_apple score0 headPos es a happles hahit).1,
   (check_eat_of_unique_apple score0 headPos es a happles hahit).2.1,
   (check_eat_of_unique_apple score0 headPos es a happles hahit).2.2.1,
   (check_eat_of_unique_apple score0 headPos es a happles hahit).2.2.2,
   check_gameOver_of_wallHit score0 headPos es w hw hwall hwhit⟩

/-- Witness for C10: head at (0, 340) overlapping both an apple at
(5, 335) and the top wall: the pass scores 1, respawns the apple, spawns a
segment at the head and requests GameOver. -/
theorem C10_eat_and_die_same_pass_witness :
    (check_for_collisions 0 ⟨0, 340⟩
        [⟨appleSpawnComponents, ⟨5, 335⟩, ⟨20, 20⟩⟩,
         ⟨wallComponents, ⟨0, 350⟩, ⟨710, 10⟩⟩]).score = 0 + 1 ∧
    (check_for_collisions 0 ⟨0, 340⟩
        [⟨appleSpawnComponents, ⟨5, 335⟩, ⟨20, 20⟩⟩,
         ⟨wallComponents, ⟨0, 350⟩, ⟨710, 10⟩⟩]).applesDespawned = 1 ∧
    (check_for_collisions 0 ⟨0, 340⟩
        [⟨appleSpawnComponents, ⟨5, 335⟩, ⟨20, 20⟩⟩,
         ⟨wallComponents, ⟨0, 350⟩, ⟨710, 10⟩⟩]).applesSpawned = 1 ∧
    (check_for_collisions 0 ⟨0, 340⟩
        [⟨appleSpawnComponents, ⟨5, 335⟩, ⟨20, 20⟩⟩,
         ⟨wallComponents, ⟨0, 350⟩, ⟨710, 10⟩⟩]).segmentsAppended
      = [⟨0, 340⟩] ∧
    (check_for_collisions 0 ⟨0, 340⟩
        [⟨appleSpawnComponents, ⟨5, 335⟩, ⟨20, 20⟩⟩,
         ⟨wallComponents, ⟨0, 350⟩, ⟨710, 10⟩⟩]).gameOver = true :=
  C10_eat_and_die_same_pass 0 ⟨0, 340⟩
    [⟨appleSpawnComponents, ⟨5, 335⟩, ⟨20, 20⟩⟩,
     ⟨wallComponents, ⟨0, 350⟩, ⟨710, 10⟩⟩]
    ⟨appleSpawnComponents, ⟨5, 335⟩, ⟨20, 20⟩⟩
    ⟨wallComponents, ⟨0, 350⟩, ⟨710, 10⟩⟩
    (by decide) (by decide) (by decide) (by decide) (by decide)

end SnakeBevy
